import Mathlib

/-!
# ToDoList-Demo: the CRUD handlers of `backend/main.go`

A shallow embedding of the four request handlers (`getTodos`, `createTodo`,
`updateTodo`, `deleteTodo`) over an explicit model of the `todos` table, and
the properties of the handlers proved on it.

Every handler takes the store before the request and returns an `Outcome`:
the store after the request, the HTTP status, the JSON body and the SQL
statements issued, in order. A storage call can fail for a reason that is not
in the data (`Faults`); the handler then takes its 500 arm.
-/

namespace TodoList

/-! ## Data model -/

/-- Todo struct represents a single todo item (`type Todo struct`). -/
structure Todo where
  ID : Int
  Title : String
  Completed : Bool
  deriving DecidableEq, Repr

/-- Modelled from the spec: the schema of the `todos` table is not part of the
sources. One row has the columns `id` (primary key, store-assigned), `title`
(text), `completed` (boolean, false at creation) and `created_at` (the
insertion time, a reading of the store's clock). -/
structure Row where
  id : Int
  title : String
  completed : Bool
  created_at : Nat
  deriving DecidableEq, Repr

/-- Modelled from the spec: the `todos` table is not part of the sources. The
store is the rows of the table, in the order they were inserted, and the last
value handed out by the sequence that assigns `id`. -/
structure Store where
  rows : List Row
  seq : Nat
  deriving DecidableEq, Repr

/-- The store before any request: no rows, sequence untouched. -/
def Store.empty : Store := ⟨[], 0⟩

/-- The SQL statements the handlers issue. -/
inductive Stmt where
  /-- `SELECT id, title, completed FROM todos ORDER BY created_at DESC` -/
  | selectAll
  /-- `INSERT INTO todos (title) VALUES ($1) RETURNING id, title, completed` -/
  | insertTitle (title : String)
  /-- `SELECT id, title, completed FROM todos WHERE id = $1` -/
  | selectById (id : Int)
  /-- `UPDATE todos SET title = $1, completed = $2 WHERE id = $3` -/
  | updateById (title : String) (completed : Bool) (id : Int)
  /-- `DELETE FROM todos WHERE id = $1` -/
  | deleteById (id : Int)
  deriving DecidableEq, Repr

/-- Errors of a storage call: `sql.ErrNoRows`, or any other failure. -/
inductive DbError where
  | ErrNoRows
  | failure
  deriving DecidableEq, Repr

/-- What the storage calls of one request meet apart from the data: for each
kind of call, whether it fails for a reason of its own (connection lost,
statement refused by the server, value that cannot be decoded). -/
structure Faults where
  /-- `db.Query`, or `db.QueryRow(...).Scan(...)`, returns an error that is not
  `sql.ErrNoRows`. -/
  query : Bool
  /-- `rows.Scan` in the loop of `getTodos` fails on the row at this position of
  the result set (counted from 0). -/
  scanAt : Option Nat
  /-- `db.Exec` returns an error. -/
  exec : Bool
  /-- `result.RowsAffected` returns an error. -/
  rowsAffected : Bool
  deriving DecidableEq, Repr

/-- Every storage call of the request goes through. -/
def Faults.clear : Faults := ⟨false, none, false, false⟩

/-- The JSON body of a response: a list of todos, one todo, `gin.H` with the
key `error`, or `gin.H` with the key `message`. -/
inductive Body where
  | todos (items : List Todo)
  | todo (item : Todo)
  | error (msg : String)
  | message (msg : String)
  deriving DecidableEq, Repr

/-- What a handler does: the store it leaves, the response it writes and the
statements it issued. -/
structure Outcome where
  db : Store
  status : Nat
  body : Body
  stmts : List Stmt
  deriving DecidableEq, Repr

def StatusOK : Nat := 200
def StatusCreated : Nat := 201
def StatusBadRequest : Nat := 400
def StatusNotFound : Nat := 404
def StatusInternalServerError : Nat := 500

/-! ## `strconv.Atoi` -/

/-- Reads a run of decimal digits, most significant first, onto `acc`; `none`
when a character is not a digit. -/
def parseDigits : List Char → Nat → Option Nat
  | [], acc => some acc
  | c :: cs, acc =>
    if c.isDigit then parseDigits cs (acc * 10 + (c.toNat - 48)) else none

/-- Go's `strconv.Atoi` where `int` has 64 bits: an optional sign, then one or
more decimal digits, the value within `[-2^63, 2^63 - 1]`; `none` stands for
the returned error (syntax or range). -/
def Atoi (s : String) : Option Int :=
  match s.toList with
  | [] => none
  | c :: cs =>
    let neg := decide (c = '-')
    let ds := if c = '-' ∨ c = '+' then cs else c :: cs
    if ds = [] then none
    else
      match parseDigits ds 0 with
      | none => none
      | some un =>
        if neg then
          if un > 2 ^ 63 then none else some (-(un : Int))
        else
          if un ≥ 2 ^ 63 then none else some (un : Int)

/-! ## The store's statements

Each call takes `fails`, whether it fails for a reason of its own. A statement
that fails leaves the table as it was. -/

/-- One row as `rows.Scan(&todo.ID, &todo.Title, &todo.Completed)` reads it. -/
def Row.toTodo (r : Row) : Todo := ⟨r.id, r.title, r.completed⟩

/-- `rows.Scan` of one row of the result set. -/
def scanRow (fails : Bool) (r : Row) : Except DbError Todo :=
  if fails then .error .failure else .ok r.toTodo

/-- The order of `ORDER BY created_at DESC`: `a` may stand before `b`. -/
def createdDesc (a b : Row) : Prop := b.created_at ≤ a.created_at

instance : DecidableRel createdDesc := fun a b => Nat.decLe b.created_at a.created_at

instance : IsTotal Row createdDesc := ⟨fun a b => Nat.le_total b.created_at a.created_at⟩

instance : IsTrans Row createdDesc := ⟨fun _ _ _ hab hbc => Nat.le_trans hbc hab⟩

/-- `db.Query("SELECT id, title, completed FROM todos ORDER BY created_at DESC")`:
all rows, latest `created_at` first; rows of equal `created_at` keep the order
of the table. -/
def queryAll (fails : Bool) (db : Store) : Except DbError (List Row) :=
  if fails then .error .failure else .ok (db.rows.insertionSort createdDesc)

/-- Modelled from the spec: the defaults and the key of the `todos` table are
not part of the sources. This is
`db.QueryRow("INSERT INTO todos (title) VALUES ($1) RETURNING ...")` at clock
reading `now`: the store assigns `id` from its sequence, which starts at 1 and
advances even when the key refuses the row; the primary key refuses an `id`
already in the table; `completed` defaults to false and `created_at` to the
insertion time. -/
def execInsert (fails : Bool) (now : Nat) (title : String) (db : Store) :
    Store × Except DbError Row :=
  if fails then (db, .error .failure)
  else
    let id : Int := ((db.seq + 1 : Nat) : Int)
    let row : Row := ⟨id, title, false, now⟩
    if db.rows.any (fun r => r.id == id) then
      (⟨db.rows, db.seq + 1⟩, .error .failure)
    else
      (⟨db.rows ++ [row], db.seq + 1⟩, .ok row)

/-- `db.QueryRow("SELECT id, title, completed FROM todos WHERE id = $1", id)`
with its `Scan`: the first row with that id, `sql.ErrNoRows` when there is
none, another error when the call fails. -/
def selectById (fails : Bool) (id : Int) (db : Store) : Except DbError Row :=
  if fails then .error .failure
  else
    match db.rows.find? (fun r => r.id == id) with
    | some r => .ok r
    | none => .error .ErrNoRows

/-- `db.Exec("UPDATE todos SET title = $1, completed = $2 WHERE id = $3", ...)`:
every row with that id takes the new title and completed; the result is the
number of rows affected. -/
def execUpdate (fails : Bool) (title : String) (completed : Bool) (id : Int) (db : Store) :
    Store × Except DbError Nat :=
  if fails then (db, .error .failure)
  else
    (⟨db.rows.map (fun r =>
        if r.id = id then { r with title := title, completed := completed } else r),
      db.seq⟩,
     .ok (db.rows.countP (fun r => r.id == id)))

/-- `db.Exec("DELETE FROM todos WHERE id = $1", id)`: every row with that id
is removed; the result is the number of rows affected. -/
def execDelete (fails : Bool) (id : Int) (db : Store) : Store × Except DbError Nat :=
  if fails then (db, .error .failure)
  else
    (⟨db.rows.filter (fun r => !(r.id == id)), db.seq⟩,
     .ok (db.rows.countP (fun r => r.id == id)))

/-- `result.RowsAffected()`. -/
def rowsAffected (fails : Bool) (n : Nat) : Except DbError Nat :=
  if fails then .error .failure else .ok n

/-! ## Request bodies -/

/-- The JSON object of a create request as `ShouldBindJSON` reads it: the
value of the key `title`, `none` when the key is absent or null. -/
structure CreateJSON where
  title : Option String
  deriving DecidableEq, Repr

/-- The JSON object of an update request as `ShouldBindJSON` reads it into
`Title *string` and `Completed *bool`: `none` is the nil pointer (key absent
or null). -/
structure UpdateJSON where
  title : Option String
  completed : Option Bool
  deriving DecidableEq, Repr

/-! ## Handlers -/

/-- The loop `for rows.Next() { rows.Scan(...); todos = append(todos, todo) }`
from position `i` of the result set on; it ends at the first `Scan` that
fails. -/
def scanAll (failAt : Option Nat) : Nat → List Row → Except DbError (List Todo)
  | _, [] => .ok []
  | i, r :: rs =>
    match scanRow (failAt == some i) r with
    | .error e => .error e
    | .ok t =>
      match scanAll failAt (i + 1) rs with
      | .error e => .error e
      | .ok ts => .ok (t :: ts)

/-- `getTodos` handles GET /api/todos. -/
def getTodos (f : Faults) (db : Store) : Outcome :=
  match queryAll f.query db with
  | .error _ => ⟨db, StatusInternalServerError, .error "Failed to retrieve todos", [.selectAll]⟩
  | .ok rows =>
    match scanAll f.scanAt 0 rows with
    | .error _ => ⟨db, StatusInternalServerError, .error "Failed to scan todo", [.selectAll]⟩
    | .ok todos => ⟨db, StatusOK, .todos todos, [.selectAll]⟩

/-- `createTodo` handles POST /api/todos. `body` is `none` when
`ShouldBindJSON` fails; `now` is the store's clock at the insert. -/
def createTodo (f : Faults) (now : Nat) (body : Option CreateJSON) (db : Store) : Outcome :=
  match body with
  | none => ⟨db, StatusBadRequest, .error "Invalid request body", []⟩
  | some newTodo =>
    let title := newTodo.title.getD ""
    if title = "" then
      ⟨db, StatusBadRequest, .error "Title cannot be empty", []⟩
    else
      match execInsert f.query now title db with
      | (db', .error _) =>
        ⟨db', StatusInternalServerError, .error "Failed to create todo", [.insertTitle title]⟩
      | (db', .ok row) =>
        ⟨db', StatusCreated, .todo row.toTodo, [.insertTitle title]⟩

/-- The block `// Apply updates`: each field present in the body replaces the
field read from the row. -/
def applyUpdates (updates : UpdateJSON) (current : Todo) : Todo :=
  let t1 : Todo :=
    match updates.title with
    | some t => { current with Title := t }
    | none => current
  match updates.completed with
  | some c => { t1 with Completed := c }
  | none => t1

/-- `updateTodo` handles PUT /api/todos/:id. `param` is `c.Param("id")`;
`body` is `none` when `ShouldBindJSON` fails. -/
def updateTodo (f : Faults) (param : String) (body : Option UpdateJSON) (db : Store) :
    Outcome :=
  match Atoi param with
  | none => ⟨db, StatusBadRequest, .error "Invalid ID", []⟩
  | some id =>
    match body with
    | none => ⟨db, StatusBadRequest, .error "Invalid request body", []⟩
    | some updates =>
      if updates.title = none ∧ updates.completed = none then
        ⟨db, StatusBadRequest, .error "No update fields provided", []⟩
      else
        match selectById f.query id db with
        | .error .ErrNoRows =>
          ⟨db, StatusNotFound, .error "Todo not found", [.selectById id]⟩
        | .error _ =>
          ⟨db, StatusInternalServerError, .error "Failed to find todo", [.selectById id]⟩
        | .ok row =>
          let updatedTodo := applyUpdates updates row.toTodo
          match execUpdate f.exec updatedTodo.Title updatedTodo.Completed id db with
          | (db', .error _) =>
            ⟨db', StatusInternalServerError, .error "Failed to update todo",
              [.selectById id, .updateById updatedTodo.Title updatedTodo.Completed id]⟩
          | (db', .ok _) =>
            ⟨db', StatusOK, .todo updatedTodo,
              [.selectById id, .updateById updatedTodo.Title updatedTodo.Completed id]⟩

/-- `deleteTodo` handles DELETE /api/todos/:id. `param` is `c.Param("id")`. -/
def deleteTodo (f : Faults) (param : String) (db : Store) : Outcome :=
  match Atoi param with
  | none => ⟨db, StatusBadRequest, .error "Invalid ID", []⟩
  | some id =>
    match execDelete f.exec id db with
    | (db', .error _) =>
      ⟨db', StatusInternalServerError, .error "Failed to delete todo", [.deleteById id]⟩
    | (db', .ok result) =>
      match rowsAffected f.rowsAffected result with
      | .error _ =>
        ⟨db', StatusInternalServerError, .error "Failed to check deletion status",
          [.deleteById id]⟩
      | .ok n =>
        if n = 0 then
          ⟨db', StatusNotFound, .error "Todo not found", [.deleteById id]⟩
        else
          ⟨db', StatusOK, .message "Todo deleted successfully", [.deleteById id]⟩

/-! ## Sequences of requests -/

/-- One request to the service, with what its storage calls meet. -/
inductive Request where
  | list (f : Faults)
  | create (f : Faults) (now : Nat) (body : Option CreateJSON)
  | update (f : Faults) (param : String) (body : Option UpdateJSON)
  | delete (f : Faults) (param : String)
  deriving DecidableEq, Repr

/-- The router: the handler of the request, run on the store. -/
def handle (req : Request) (db : Store) : Outcome :=
  match req with
  | .list f => getTodos f db
  | .create f now body => createTodo f now body db
  | .update f param body => updateTodo f param body db
  | .delete f param => deleteTodo f param db

/-- The store after a sequence of requests, handled one after the other. -/
def run : List Request → Store → Store
  | [], db => db
  | req :: reqs, db => run reqs (handle req db).db

/-- One Create of a sequence of Creates: what its insert meets, the clock
reading at the insert, and the title. -/
structure CreateReq where
  f : Faults
  now : Nat
  title : String
  deriving DecidableEq, Repr

/-- Creates the items of `reqs` one after the other: the store after the last
one and the outcome of each, in order. -/
def createAll : List CreateReq → Store → Store × List Outcome
  | [], db => (db, [])
  | q :: rest, db =>
    let o := createTodo q.f q.now (some ⟨some q.title⟩) db
    ((createAll rest o.db).1, o :: (createAll rest o.db).2)

/-! ## Facts about the statements -/

theorem scanAll_clear (rows : List Row) :
    ∀ i : Nat, scanAll none i rows = .ok (rows.map Row.toTodo) := by
  induction rows with
  | nil => intro i; rfl
  | cons r rs ih =>
    intro i
    have hb : ((none : Option Nat) == some i) = false := rfl
    simp only [scanAll, hb, scanRow, ih (i + 1), Bool.false_eq_true, if_false, List.map_cons]

theorem getTodos_of_clear (f : Faults) (db : Store)
    (hq : f.query = false) (hs : f.scanAt = none) :
    getTodos f db =
      ⟨db, StatusOK, .todos ((db.rows.insertionSort createdDesc).map Row.toTodo), [.selectAll]⟩ := by
  simp only [getTodos, queryAll, hq, hs, scanAll_clear, Bool.false_eq_true, if_false]

theorem getTodos_db (f : Faults) (db : Store) : (getTodos f db).db = db := by
  unfold getTodos
  split
  · rfl
  · split <;> rfl

theorem selectById_of_absent (id : Int) (db : Store) (h : ∀ r ∈ db.rows, r.id ≠ id) :
    selectById false id db = .error .ErrNoRows := by
  have hnone : db.rows.find? (fun r => r.id == id) = none := by
    rw [List.find?_eq_none]
    intro r hr
    simpa using h r hr
  simp only [selectById, hnone, Bool.false_eq_true, if_false]

theorem execInsert_of_fault (now : Nat) (title : String) (db : Store) :
    execInsert true now title db = (db, .error .failure) := by
  simp only [execInsert, if_true]

theorem execInsert_of_taken (now : Nat) (title : String) (db : Store)
    (h : db.rows.any (fun r => r.id == ((db.seq + 1 : Nat) : Int)) = true) :
    execInsert false now title db = (⟨db.rows, db.seq + 1⟩, .error .failure) := by
  simp only [execInsert, h, Bool.false_eq_true, if_false, if_true]

theorem execInsert_of_fresh (now : Nat) (title : String) (db : Store)
    (h : db.rows.any (fun r => r.id == ((db.seq + 1 : Nat) : Int)) = false) :
    execInsert false now title db
      = (⟨db.rows ++ [⟨((db.seq + 1 : Nat) : Int), title, false, now⟩], db.seq + 1⟩,
         .ok ⟨((db.seq + 1 : Nat) : Int), title, false, now⟩) := by
  simp only [execInsert, h, Bool.false_eq_true, if_false]

theorem createTodo_of_fresh (f : Faults) (now : Nat) (title : String) (db : Store)
    (ht : title ≠ "") (hq : f.query = false)
    (h : db.rows.any (fun r => r.id == ((db.seq + 1 : Nat) : Int)) = false) :
    createTodo f now (some ⟨some title⟩) db
      = ⟨⟨db.rows ++ [⟨((db.seq + 1 : Nat) : Int), title, false, now⟩], db.seq + 1⟩,
          StatusCreated, .todo ⟨((db.seq + 1 : Nat) : Int), title, false⟩,
          [.insertTitle title]⟩ := by
  simp only [createTodo, Option.getD_some, if_neg ht, hq, execInsert_of_fresh now title db h,
    Row.toTodo]

theorem createTodo_of_taken (f : Faults) (now : Nat) (title : String) (db : Store)
    (ht : title ≠ "") (hq : f.query = false)
    (h : db.rows.any (fun r => r.id == ((db.seq + 1 : Nat) : Int)) = true) :
    createTodo f now (some ⟨some title⟩) db
      = ⟨⟨db.rows, db.seq + 1⟩, StatusInternalServerError, .error "Failed to create todo",
          [.insertTitle title]⟩ := by
  simp only [createTodo, Option.getD_some, if_neg ht, hq, execInsert_of_taken now title db h]

theorem createTodo_of_fault (f : Faults) (now : Nat) (title : String) (db : Store)
    (ht : title ≠ "") (hq : f.query = true) :
    createTodo f now (some ⟨some title⟩) db
      = ⟨db, StatusInternalServerError, .error "Failed to create todo",
          [.insertTitle title]⟩ := by
  simp only [createTodo, Option.getD_some, if_neg ht, hq, execInsert_of_fault now title db]

theorem updateTodo_db (f : Faults) (param : String) (body : Option UpdateJSON) (db : Store) :
    (updateTodo f param body db).db = db ∨
    ∃ id title completed, Atoi param = some id ∧
      (updateTodo f param body db).db
        = ⟨db.rows.map (fun r =>
            if r.id = id then { r with title := title, completed := completed } else r),
           db.seq⟩ := by
  cases hA : Atoi param with
  | none => left; simp only [updateTodo, hA]
  | some id =>
    cases body with
    | none => left; simp only [updateTodo, hA]
    | some updates =>
      by_cases hg : updates.title = none ∧ updates.completed = none
      · left; simp only [updateTodo, hA, if_pos hg]
      · cases hs : selectById f.query id db with
        | error e =>
          left
          cases e <;> simp only [updateTodo, hA, if_neg hg, hs]
        | ok row =>
          cases hx : f.exec with
          | true =>
            left
            simp only [updateTodo, hA, if_neg hg, hs, execUpdate, hx, if_true]
          | false =>
            right
            refine ⟨id, (applyUpdates updates row.toTodo).Title,
              (applyUpdates updates row.toTodo).Completed, rfl, ?_⟩
            simp only [updateTodo, hA, if_neg hg, hs, execUpdate, hx, Bool.false_eq_true,
              if_false]

theorem deleteTodo_db (f : Faults) (param : String) (db : Store) :
    (deleteTodo f param db).db = db ∨
    ∃ id, Atoi param = some id ∧
      (deleteTodo f param db).db = ⟨db.rows.filter (fun r => !(r.id == id)), db.seq⟩ := by
  cases hA : Atoi param with
  | none => left; simp only [deleteTodo, hA]
  | some id =>
    cases hx : f.exec with
    | true => left; simp only [deleteTodo, hA, execDelete, hx, if_true]
    | false =>
      right
      refine ⟨id, rfl, ?_⟩
      cases hr : f.rowsAffected with
      | true =>
        simp only [deleteTodo, hA, execDelete, hx, rowsAffected, hr, Bool.false_eq_true,
          if_false, if_true]
      | false =>
        by_cases hc : db.rows.countP (fun r => r.id == id) = 0
        · simp only [deleteTodo, hA, execDelete, hx, rowsAffected, hr, Bool.false_eq_true,
            if_false, if_pos hc]
        · simp only [deleteTodo, hA, execDelete, hx, rowsAffected, hr, Bool.false_eq_true,
            if_false, if_neg hc]

theorem scanAll_ok (failAt : Option Nat) (rows : List Row) :
    ∀ (i : Nat) (ts : List Todo), scanAll failAt i rows = .ok ts → ts = rows.map Row.toTodo := by
  induction rows with
  | nil =>
    intro i ts h
    simp only [scanAll] at h
    cases h
    rfl
  | cons r rs ih =>
    intro i ts h
    cases hb : (failAt == some i) with
    | true => simp [scanAll, hb, scanRow] at h
    | false =>
      cases hrest : scanAll failAt (i + 1) rs with
      | error e => simp [scanAll, hb, scanRow, hrest] at h
      | ok us =>
        simp only [scanAll, hb, scanRow, hrest, Bool.false_eq_true, if_false] at h
        cases h
        rw [ih (i + 1) us hrest]
        rfl

/-- Whatever List meets, a list of todos in its body is the whole table in
listing order. -/
theorem getTodos_todos (g : Faults) (db : Store) (items : List Todo)
    (h : (getTodos g db).body = .todos items) :
    items = (db.rows.insertionSort createdDesc).map Row.toTodo := by
  cases hq : g.query with
  | true => simp [getTodos, queryAll, hq] at h
  | false =>
    cases hs : scanAll g.scanAt 0 (db.rows.insertionSort createdDesc) with
    | error e => simp [getTodos, queryAll, hq, hs] at h
    | ok ts =>
      simp only [getTodos, queryAll, hq, hs, Bool.false_eq_true, if_false] at h
      have hti : ts = items := Body.todos.inj h
      rw [← hti]
      exact scanAll_ok g.scanAt _ 0 ts hs

theorem createTodo_created (f : Faults) (now : Nat) (title : String) (db : Store)
    (h : (createTodo f now (some ⟨some title⟩) db).status = StatusCreated) :
    title ≠ "" ∧ f.query = false ∧
      db.rows.any (fun r => r.id == ((db.seq + 1 : Nat) : Int)) = false := by
  by_cases ht : title = ""
  · subst ht
    simp [createTodo, StatusBadRequest, StatusCreated] at h
  · cases hq : f.query with
    | true =>
      rw [createTodo_of_fault f now title db ht hq] at h
      simp [StatusInternalServerError, StatusCreated] at h
    | false =>
      refine ⟨ht, rfl, ?_⟩
      cases hany : db.rows.any (fun r => r.id == ((db.seq + 1 : Nat) : Int)) with
      | false => rfl
      | true =>
        rw [createTodo_of_taken f now title db ht hq hany] at h
        simp [StatusInternalServerError, StatusCreated] at h

theorem createAll_cons (q : CreateReq) (rest : List CreateReq) (db : Store) :
    createAll (q :: rest) db
      = ((createAll rest (createTodo q.f q.now (some ⟨some q.title⟩) db).db).1,
         createTodo q.f q.now (some ⟨some q.title⟩) db
           :: (createAll rest (createTodo q.f q.now (some ⟨some q.title⟩) db).db).2) := rfl

/-- A row later than every row of the table comes first in the listing order,
and the rows before it keep their places. -/
theorem insertionSort_append_latest (x : Row) (l : List Row)
    (h : ∀ r ∈ l, r.created_at < x.created_at) :
    (l ++ [x]).insertionSort createdDesc = x :: l.insertionSort createdDesc := by
  induction l with
  | nil => rfl
  | cons a l ih =>
    have hx : ¬ createdDesc a x := Nat.not_le.mpr (h a (List.mem_cons_self _ _))
    have ih2 := ih (fun r hr => h r (List.mem_cons_of_mem _ hr))
    show List.orderedInsert createdDesc a ((l ++ [x]).insertionSort createdDesc)
      = x :: List.orderedInsert createdDesc a (l.insertionSort createdDesc)
    rw [ih2, List.orderedInsert, if_neg hx]

theorem createAll_listing (reqs : List CreateReq) :
    ∀ db : Store,
      (∀ o ∈ (createAll reqs db).2, o.status = StatusCreated) →
      (reqs.map CreateReq.now).Pairwise (· < ·) →
      (∀ r ∈ db.rows, ∀ q ∈ reqs, r.created_at < q.now) →
      ∃ created : List Todo,
        (createAll reqs db).2.map Outcome.body = created.map Body.todo ∧
        created.map Todo.Title = reqs.map CreateReq.title ∧
        (∀ t ∈ created, t.Completed = false) ∧
        ((createAll reqs db).1.rows.insertionSort createdDesc).map Row.toTodo
          = created.reverse ++ (db.rows.insertionSort createdDesc).map Row.toTodo := by
  induction reqs with
  | nil =>
    intro db _ _ _
    exact ⟨[], rfl, rfl, by simp, rfl⟩
  | cons q rest ih =>
    obtain ⟨f, now, title⟩ := q
    intro db hcreated hclock hlater
    rw [createAll_cons] at hcreated ⊢
    obtain ⟨ht, hq, hfresh⟩ := createTodo_created f now title db
      (hcreated _ (List.mem_cons_self _ _))
    have hout := createTodo_of_fresh f now title db ht hq hfresh
    simp only [] at hcreated ⊢
    rw [hout] at hcreated ⊢
    rw [List.map_cons, List.pairwise_cons] at hclock
    obtain ⟨created, hbodies, htitles, hcompleted, hlist⟩ :=
      ih ⟨db.rows ++ [⟨((db.seq + 1 : Nat) : Int), title, false, now⟩], db.seq + 1⟩
        (fun o ho => hcreated o (List.mem_cons_of_mem _ ho))
        hclock.2
        (by
          intro r hr q hq
          rcases List.mem_append.mp hr with hr | hr
          · exact hlater r hr q (List.mem_cons_of_mem _ hq)
          · rw [List.mem_singleton] at hr
            subst hr
            exact hclock.1 q.now (List.mem_map_of_mem CreateReq.now hq))
    refine ⟨⟨((db.seq + 1 : Nat) : Int), title, false⟩ :: created, ?_, ?_, ?_, ?_⟩
    · simp only [List.map_cons, hbodies]
    · simp only [List.map_cons, htitles]
    · intro t hmem
      rcases List.mem_cons.mp hmem with h | h
      · rw [h]
      · exact hcompleted t h
    · rw [hlist]
      have hsort := insertionSort_append_latest
        (⟨((db.seq + 1 : Nat) : Int), title, false, now⟩ : Row) db.rows
        (fun r hr => hlater r hr ⟨f, now, title⟩ (List.mem_cons_self _ _))
      show created.reverse ++
          ((db.rows ++ [(⟨((db.seq + 1 : Nat) : Int), title, false, now⟩ : Row)]).insertionSort
            createdDesc).map Row.toTodo = _
      rw [hsort]
      simp only [List.map_cons, Row.toTodo, List.reverse_cons, List.append_assoc,
        List.singleton_append]

/-! ## The claims -/

/-- C3: for every store, Create with an empty or absent title returns 400 and
creates no row, whatever the storage would do: no statement is issued, the
store is unchanged, and so List returns the same as before (the same items,
the same number of them). -/
theorem createTodo_empty_title_rejected (f g : Faults) (now : Nat) (j : CreateJSON)
    (db : Store) (h : j.title = none ∨ j.title = some "") :
    (createTodo f now (some j) db).status = StatusBadRequest ∧
    (createTodo f now (some j) db).stmts = [] ∧
    (createTodo f now (some j) db).db = db ∧
    (getTodos g (createTodo f now (some j) db).db).body = (getTodos g db).body := by
  rcases h with h | h <;> simp [createTodo, h]

/-- Create with the body `title: ""` on a store of one row: 400, nothing issued, nothing changed. -/
theorem createTodo_empty_title_rejected_witness :
    (createTodo Faults.clear 7 (some ⟨some ""⟩) ⟨[⟨1, "Buy milk", false, 3⟩], 1⟩).status
      = StatusBadRequest ∧
    (createTodo Faults.clear 7 (some ⟨some ""⟩) ⟨[⟨1, "Buy milk", false, 3⟩], 1⟩).stmts = [] ∧
    (createTodo Faults.clear 7 (some ⟨some ""⟩) ⟨[⟨1, "Buy milk", false, 3⟩], 1⟩).db
      = ⟨[⟨1, "Buy milk", false, 3⟩], 1⟩ ∧
    (getTodos Faults.clear
        (createTodo Faults.clear 7 (some ⟨some ""⟩) ⟨[⟨1, "Buy milk", false, 3⟩], 1⟩).db).body
      = (getTodos Faults.clear ⟨[⟨1, "Buy milk", false, 3⟩], 1⟩).body :=
  createTodo_empty_title_rejected Faults.clear Faults.clear 7 ⟨some ""⟩
    ⟨[⟨1, "Buy milk", false, 3⟩], 1⟩ (Or.inr rfl)

/-- C6: for every store, every body and every path segment on which
`strconv.Atoi` fails, Update and Delete answer 400 "Invalid ID" (not 404, not
500), issue no statement and leave the store unchanged, whatever the storage
would do. -/
theorem malformed_id_rejected (f : Faults) (param : String) (body : Option UpdateJSON)
    (db : Store) (h : Atoi param = none) :
    updateTodo f param body db = ⟨db, StatusBadRequest, .error "Invalid ID", []⟩ ∧
    deleteTodo f param db = ⟨db, StatusBadRequest, .error "Invalid ID", []⟩ := by
  simp [updateTodo, deleteTodo, h]

/-- The empty segment, a non-numeric segment and a segment one past the largest `int`: Atoi fails on each, and Update and Delete answer 400 without touching the store. -/
theorem malformed_id_rejected_witness :
    (Atoi "" = none ∧
      updateTodo Faults.clear "" (some ⟨some "x", none⟩) ⟨[⟨1, "a", false, 3⟩], 1⟩
        = ⟨⟨[⟨1, "a", false, 3⟩], 1⟩, StatusBadRequest, .error "Invalid ID", []⟩ ∧
      deleteTodo Faults.clear "" ⟨[⟨1, "a", false, 3⟩], 1⟩
        = ⟨⟨[⟨1, "a", false, 3⟩], 1⟩, StatusBadRequest, .error "Invalid ID", []⟩) ∧
    (Atoi "abc" = none ∧
      updateTodo Faults.clear "abc" none Store.empty
        = ⟨Store.empty, StatusBadRequest, .error "Invalid ID", []⟩ ∧
      deleteTodo Faults.clear "abc" Store.empty
        = ⟨Store.empty, StatusBadRequest, .error "Invalid ID", []⟩) ∧
    (Atoi "9223372036854775808" = none ∧
      updateTodo Faults.clear "9223372036854775808" (some ⟨none, some true⟩) Store.empty
        = ⟨Store.empty, StatusBadRequest, .error "Invalid ID", []⟩ ∧
      deleteTodo Faults.clear "9223372036854775808" Store.empty
        = ⟨Store.empty, StatusBadRequest, .error "Invalid ID", []⟩) :=
  ⟨⟨by decide, malformed_id_rejected Faults.clear "" _ _ (by decide)⟩,
   ⟨by decide, malformed_id_rejected Faults.clear "abc" _ _ (by decide)⟩,
   ⟨by decide, malformed_id_rejected Faults.clear "9223372036854775808" _ _ (by decide)⟩⟩

/-- C8: for every store and every well-formed id, an Update whose body carries
neither title nor completed answers 400 "No update fields provided", whether
or not the id matches a row and whatever the storage would do: it is not
reported as not-found, no statement is issued and the store is unchanged. -/
theorem updateTodo_no_fields (f : Faults) (param : String) (id : Int) (updates : UpdateJSON)
    (db : Store)
    (hid : Atoi param = some id)
    (hnone : updates.title = none ∧ updates.completed = none) :
    updateTodo f param (some updates) db
      = ⟨db, StatusBadRequest, .error "No update fields provided", []⟩ ∧
    (updateTodo f param (some updates) db).status ≠ StatusNotFound := by
  simp [updateTodo, hid, hnone, StatusBadRequest, StatusNotFound]

/-- Update with a body of no fields, once on an id that has a row and once on an id that has none: 400 both times. -/
theorem updateTodo_no_fields_witness :
    (updateTodo Faults.clear "1" (some ⟨none, none⟩) ⟨[⟨1, "a", false, 3⟩], 1⟩
      = ⟨⟨[⟨1, "a", false, 3⟩], 1⟩, StatusBadRequest, .error "No update fields provided", []⟩ ∧
    (updateTodo Faults.clear "1" (some ⟨none, none⟩) ⟨[⟨1, "a", false, 3⟩], 1⟩).status
      ≠ StatusNotFound) ∧
    (updateTodo Faults.clear "5" (some ⟨none, none⟩) ⟨[⟨1, "a", false, 3⟩], 1⟩
      = ⟨⟨[⟨1, "a", false, 3⟩], 1⟩, StatusBadRequest, .error "No update fields provided", []⟩ ∧
    (updateTodo Faults.clear "5" (some ⟨none, none⟩) ⟨[⟨1, "a", false, 3⟩], 1⟩).status
      ≠ StatusNotFound) :=
  ⟨updateTodo_no_fields Faults.clear "1" 1 ⟨none, none⟩ ⟨[⟨1, "a", false, 3⟩], 1⟩
      (by decide) ⟨rfl, rfl⟩,
   updateTodo_no_fields Faults.clear "5" 5 ⟨none, none⟩ ⟨[⟨1, "a", false, 3⟩], 1⟩
      (by decide) ⟨rfl, rfl⟩⟩

/-- C7, as stated, fails: on a store whose only row has id 1, Update of id 5
with the body `completed: true` answers 500 "Failed to find todo", not 404,
when the SELECT fails for a reason of its own. -/
theorem updateTodo_not_found_select_fails :
    Atoi "5" = some 5 ∧
    updateTodo ⟨true, none, false, false⟩ "5" (some ⟨none, some true⟩) ⟨[⟨1, "a", false, 3⟩], 1⟩
      = ⟨⟨[⟨1, "a", false, 3⟩], 1⟩, StatusInternalServerError, .error "Failed to find todo",
          [.selectById 5]⟩ := by
  decide

/-- C7, amended: for every store and every well-formed id that matches no row,
Update with a body carrying at least one of title/completed, whose SELECT does
not fail for a reason of its own, answers 404 "Todo not found" after the one
SELECT, and the store is unchanged. -/
theorem updateTodo_not_found (f : Faults) (param : String) (id : Int) (updates : UpdateJSON)
    (db : Store)
    (hid : Atoi param = some id)
    (hfields : updates.title ≠ none ∨ updates.completed ≠ none)
    (habsent : ∀ r ∈ db.rows, r.id ≠ id)
    (hselect : f.query = false) :
    updateTodo f param (some updates) db
      = ⟨db, StatusNotFound, .error "Todo not found", [.selectById id]⟩ := by
  have hguard : ¬ (updates.title = none ∧ updates.completed = none) := by
    rintro ⟨h1, h2⟩
    rcases hfields with h | h
    · exact h h1
    · exact h h2
  simp only [updateTodo, hid, if_neg hguard, hselect, selectById_of_absent id db habsent]

/-- Update of id 5 on a store whose only row has id 1, the UPDATE statement set
to fail: 404 all the same, store unchanged. -/
theorem updateTodo_not_found_witness :
    updateTodo ⟨false, none, true, false⟩ "5" (some ⟨none, some true⟩) ⟨[⟨1, "a", false, 3⟩], 1⟩
      = ⟨⟨[⟨1, "a", false, 3⟩], 1⟩, StatusNotFound, .error "Todo not found", [.selectById 5]⟩ :=
  updateTodo_not_found ⟨false, none, true, false⟩ "5" 5 ⟨none, some true⟩
    ⟨[⟨1, "a", false, 3⟩], 1⟩ (by decide) (Or.inr (by decide)) (by decide) rfl

/-- C2, as stated, fails: Update of id 1, which has a row, with the body
`completed: true` answers 500 and leaves the row as it was when the SELECT
fails for a reason of its own, and likewise when the UPDATE fails. -/
theorem updateTodo_merges_storage_fails :
    Atoi "1" = some 1 ∧
    ([⟨2, "b", false, 4⟩, ⟨1, "a", false, 3⟩] : List Row).find? (fun r => r.id == 1)
      = some ⟨1, "a", false, 3⟩ ∧
    updateTodo ⟨true, none, false, false⟩ "1" (some ⟨none, some true⟩)
        ⟨[⟨2, "b", false, 4⟩, ⟨1, "a", false, 3⟩], 2⟩
      = ⟨⟨[⟨2, "b", false, 4⟩, ⟨1, "a", false, 3⟩], 2⟩, StatusInternalServerError,
          .error "Failed to find todo", [.selectById 1]⟩ ∧
    updateTodo ⟨false, none, true, false⟩ "1" (some ⟨none, some true⟩)
        ⟨[⟨2, "b", false, 4⟩, ⟨1, "a", false, 3⟩], 2⟩
      = ⟨⟨[⟨2, "b", false, 4⟩, ⟨1, "a", false, 3⟩], 2⟩, StatusInternalServerError,
          .error "Failed to update todo", [.selectById 1, .updateById "a" true 1]⟩ := by
  decide

/-- C2, amended: for every store and every Update with a well-formed id that
matches a row (`row` is the row the SELECT reads) and a body with at least one
of title/completed, whose SELECT and UPDATE do not fail for a reason of their
own, Update answers 200 with the merged Todo: the id of the row, each field of
the body that is present, and the field of the row where the body has none.
The UPDATE writes exactly those two fields to the rows of that id, and reading
the id back gives the merged Todo. -/
theorem updateTodo_merges (f : Faults) (param : String) (id : Int) (updates : UpdateJSON)
    (db : Store) (row : Row)
    (hid : Atoi param = some id)
    (hfields : updates.title ≠ none ∨ updates.completed ≠ none)
    (hrow : db.rows.find? (fun r => r.id == id) = some row)
    (hselect : f.query = false)
    (hexec : f.exec = false) :
    (updateTodo f param (some updates) db).status = StatusOK ∧
    (updateTodo f param (some updates) db).body
      = .todo ⟨id, updates.title.getD row.title, updates.completed.getD row.completed⟩ ∧
    (updateTodo f param (some updates) db).db
      = ⟨db.rows.map (fun r =>
          if r.id = id then
            { r with title := updates.title.getD row.title,
                     completed := updates.completed.getD row.completed }
          else r), db.seq⟩ ∧
    (selectById false id (updateTodo f param (some updates) db).db).map Row.toTodo
      = .ok ⟨id, updates.title.getD row.title, updates.completed.getD row.completed⟩ := by
  have hguard : ¬ (updates.title = none ∧ updates.completed = none) := by
    rintro ⟨h1, h2⟩
    rcases hfields with h | h
    · exact h h1
    · exact h h2
  have hrid : row.id = id := by
    have := List.find?_some hrow
    simpa using this
  have hmerged : applyUpdates updates row.toTodo
      = ⟨id, updates.title.getD row.title, updates.completed.getD row.completed⟩ := by
    rcases updates with ⟨_ | t, _ | c⟩ <;> simp [applyUpdates, Row.toTodo, hrid]
  have hout : updateTodo f param (some updates) db
      = ⟨⟨db.rows.map (fun r =>
            if r.id = id then
              { r with title := updates.title.getD row.title,
                       completed := updates.completed.getD row.completed }
            else r), db.seq⟩,
          StatusOK,
          .todo ⟨id, updates.title.getD row.title, updates.completed.getD row.completed⟩,
          [.selectById id,
           .updateById (updates.title.getD row.title) (updates.completed.getD row.completed) id]⟩ := by
    simp only [updateTodo, hid, selectById, hrow, hmerged, execUpdate, if_neg hguard, hselect,
      hexec, Bool.false_eq_true, if_false]
  refine ⟨by rw [hout], by rw [hout], by rw [hout], ?_⟩
  rw [hout]
  have hfind : ∀ rows : List Row, rows.find? (fun r => r.id == id) = some row →
      (rows.map (fun r =>
          if r.id = id then
            { r with title := updates.title.getD row.title,
                     completed := updates.completed.getD row.completed }
          else r)).find? (fun r => r.id == id)
        = some { row with title := updates.title.getD row.title,
                          completed := updates.completed.getD row.completed } := by
    intro rows
    induction rows with
    | nil => intro h; simp at h
    | cons a as ih =>
      intro h
      by_cases ha : a.id = id
      · have hb : (a.id == id) = true := by simpa using ha
        have : a = row := by simpa [List.find?_cons, hb] using h
        subst this
        simp [List.find?_cons, ha]
      · have hb : (a.id == id) = false := by simpa using ha
        have h2 : as.find? (fun r => r.id == id) = some row := by
          simpa [List.find?_cons, hb] using h
        simp [List.find?_cons, ha, hb, ih h2]
  simp [selectById, hfind db.rows hrow, Row.toTodo, hrid, Except.map]

/-- Update of id 1 with only `completed: true`: the title stays "a", completed becomes true, and the other row is as before. -/
theorem updateTodo_merges_witness :
    (updateTodo Faults.clear "1" (some ⟨none, some true⟩)
        ⟨[⟨2, "b", false, 4⟩, ⟨1, "a", false, 3⟩], 2⟩).status = StatusOK ∧
    (updateTodo Faults.clear "1" (some ⟨none, some true⟩)
        ⟨[⟨2, "b", false, 4⟩, ⟨1, "a", false, 3⟩], 2⟩).body = .todo ⟨1, "a", true⟩ ∧
    (updateTodo Faults.clear "1" (some ⟨none, some true⟩)
        ⟨[⟨2, "b", false, 4⟩, ⟨1, "a", false, 3⟩], 2⟩).db
      = ⟨[⟨2, "b", false, 4⟩, ⟨1, "a", true, 3⟩], 2⟩ ∧
    (selectById false 1
        (updateTodo Faults.clear "1" (some ⟨none, some true⟩)
          ⟨[⟨2, "b", false, 4⟩, ⟨1, "a", false, 3⟩], 2⟩).db).map Row.toTodo
      = .ok ⟨1, "a", true⟩ :=
  updateTodo_merges Faults.clear "1" 1 ⟨none, some true⟩
    ⟨[⟨2, "b", false, 4⟩, ⟨1, "a", false, 3⟩], 2⟩
    ⟨1, "a", false, 3⟩ (by decide) (Or.inr (by decide)) (by decide) rfl rfl

/-- C4: for every store and every non-empty title `t`, a Create whose insert
succeeds answers 201 with a Todo of title `t`, completed false and a positive
id that no row of the store had, and the store afterwards holds the previous
rows followed by that one row. -/
theorem createTodo_success (f : Faults) (now : Nat) (t : String) (db : Store)
    (ht : t ≠ "")
    (hins : ∃ row, (execInsert f.query now t db).2 = .ok row) :
    ∃ todo : Todo,
      (createTodo f now (some ⟨some t⟩) db).status = StatusCreated ∧
      (createTodo f now (some ⟨some t⟩) db).body = .todo todo ∧
      todo.Title = t ∧ todo.Completed = false ∧ 0 < todo.ID ∧
      (∀ r ∈ db.rows, r.id ≠ todo.ID) ∧
      (createTodo f now (some ⟨some t⟩) db).db.rows = db.rows ++ [⟨todo.ID, t, false, now⟩] := by
  obtain ⟨row, hrow⟩ := hins
  cases hq : f.query with
  | true =>
    rw [hq, execInsert_of_fault now t db] at hrow
    cases hrow
  | false =>
    rw [hq] at hrow
    cases hany : db.rows.any (fun r => r.id == ((db.seq + 1 : Nat) : Int)) with
    | true =>
      rw [execInsert_of_taken now t db hany] at hrow
      cases hrow
    | false =>
      have hout := createTodo_of_fresh f now t db ht hq hany
      refine ⟨⟨((db.seq + 1 : Nat) : Int), t, false⟩, by rw [hout], by rw [hout], rfl, rfl,
        ?_, ?_, by rw [hout]⟩
      · show (0 : Int) < ((db.seq + 1 : Nat) : Int)
        exact Int.natCast_pos.mpr (Nat.succ_pos _)
      · intro r hr hid
        have htrue : db.rows.any (fun r => r.id == ((db.seq + 1 : Nat) : Int)) = true := by
          rw [List.any_eq_true]
          exact ⟨r, hr, by simpa using hid⟩
        rw [hany] at htrue
        cases htrue

/-- Create "Buy milk" on a store whose sequence stands at 1: 201 with a fresh positive id, completed false, one row appended. -/
theorem createTodo_success_witness :
    ∃ todo : Todo,
      (createTodo Faults.clear 9 (some ⟨some "Buy milk"⟩) ⟨[⟨1, "a", true, 3⟩], 1⟩).status
        = StatusCreated ∧
      (createTodo Faults.clear 9 (some ⟨some "Buy milk"⟩) ⟨[⟨1, "a", true, 3⟩], 1⟩).body
        = .todo todo ∧
      todo.Title = "Buy milk" ∧ todo.Completed = false ∧ 0 < todo.ID ∧
      (∀ r ∈ ([⟨1, "a", true, 3⟩] : List Row), r.id ≠ todo.ID) ∧
      (createTodo Faults.clear 9 (some ⟨some "Buy milk"⟩) ⟨[⟨1, "a", true, 3⟩], 1⟩).db.rows
        = [⟨1, "a", true, 3⟩] ++ [⟨todo.ID, "Buy milk", false, 9⟩] :=
  createTodo_success Faults.clear 9 "Buy milk" ⟨[⟨1, "a", true, 3⟩], 1⟩ (by decide)
    ⟨⟨2, "Buy milk", false, 9⟩, rfl⟩

/-- C5, as stated, fails: on a store that holds id 1, Delete of id 1 answers
500 and keeps the row when the DELETE fails for a reason of its own; it
answers 500 after removing the row when `RowsAffected` fails; and after a
first Delete that answered 200, a second one whose DELETE fails answers 500,
not 404. -/
theorem deleteTodo_twice_storage_fails :
    Atoi "1" = some 1 ∧
    deleteTodo ⟨false, none, true, false⟩ "1" ⟨[⟨1, "a", false, 3⟩, ⟨2, "b", true, 4⟩], 2⟩
      = ⟨⟨[⟨1, "a", false, 3⟩, ⟨2, "b", true, 4⟩], 2⟩, StatusInternalServerError,
          .error "Failed to delete todo", [.deleteById 1]⟩ ∧
    deleteTodo ⟨false, none, false, true⟩ "1" ⟨[⟨1, "a", false, 3⟩, ⟨2, "b", true, 4⟩], 2⟩
      = ⟨⟨[⟨2, "b", true, 4⟩], 2⟩, StatusInternalServerError,
          .error "Failed to check deletion status", [.deleteById 1]⟩ ∧
    deleteTodo Faults.clear "1" ⟨[⟨1, "a", false, 3⟩, ⟨2, "b", true, 4⟩], 2⟩
      = ⟨⟨[⟨2, "b", true, 4⟩], 2⟩, StatusOK, .message "Todo deleted successfully",
          [.deleteById 1]⟩ ∧
    deleteTodo ⟨false, none, true, false⟩ "1" ⟨[⟨2, "b", true, 4⟩], 2⟩
      = ⟨⟨[⟨2, "b", true, 4⟩], 2⟩, StatusInternalServerError,
          .error "Failed to delete todo", [.deleteById 1]⟩ := by
  decide

/-- C5, amended: for every store and every id present in it, a Delete whose
DELETE and `RowsAffected` do not fail for a reason of their own answers 200 and
removes the rows of that id and no other; the List that follows answers 200
with no item of that id when nothing fails, and whatever it meets it returns
no item of that id; a second Delete of the same id, its DELETE and
`RowsAffected` not failing either, answers 404 and leaves the store as the
first one left it. -/
theorem deleteTodo_twice (f1 f2 : Faults) (param : String) (id : Int) (db : Store)
    (hid : Atoi param = some id)
    (hpresent : ∃ r ∈ db.rows, r.id = id)
    (hexec1 : f1.exec = false) (hrows1 : f1.rowsAffected = false)
    (hexec2 : f2.exec = false) (hrows2 : f2.rowsAffected = false) :
    (deleteTodo f1 param db).status = StatusOK ∧
    (deleteTodo f1 param db).db.rows = db.rows.filter (fun r => decide (r.id ≠ id)) ∧
    (∃ items,
      getTodos Faults.clear (deleteTodo f1 param db).db
        = ⟨(deleteTodo f1 param db).db, StatusOK, .todos items, [.selectAll]⟩ ∧
      ∀ item ∈ items, item.ID ≠ id) ∧
    (∀ (g : Faults) (items : List Todo),
      (getTodos g (deleteTodo f1 param db).db).body = .todos items →
      ∀ item ∈ items, item.ID ≠ id) ∧
    (deleteTodo f2 param (deleteTodo f1 param db).db).status = StatusNotFound ∧
    (deleteTodo f2 param (deleteTodo f1 param db).db).db = (deleteTodo f1 param db).db := by
  obtain ⟨r0, hr0, hr0id⟩ := hpresent
  have hcount : db.rows.countP (fun r => r.id == id) ≠ 0 := by
    intro h0
    rw [List.countP_eq_zero] at h0
    exact h0 r0 hr0 (by simpa using hr0id)
  have hfirst : deleteTodo f1 param db
      = ⟨⟨db.rows.filter (fun r => !(r.id == id)), db.seq⟩, StatusOK,
          .message "Todo deleted successfully", [.deleteById id]⟩ := by
    simp only [deleteTodo, hid, execDelete, rowsAffected, hexec1, hrows1, Bool.false_eq_true,
      if_false, if_neg hcount]
  have hgone : (db.rows.filter (fun r => !(r.id == id))).countP (fun r => r.id == id) = 0 := by
    rw [List.countP_eq_zero]
    intro r hr
    have := (List.mem_filter.mp hr).2
    simpa using this
  have hsecond : deleteTodo f2 param ⟨db.rows.filter (fun r => !(r.id == id)), db.seq⟩
      = ⟨⟨db.rows.filter (fun r => !(r.id == id)), db.seq⟩, StatusNotFound,
          .error "Todo not found", [.deleteById id]⟩ := by
    simp only [deleteTodo, hid, execDelete, rowsAffected, hexec2, hrows2, Bool.false_eq_true,
      if_false, hgone, if_true]
    simp [List.filter_filter]
  have hitems : ∀ item ∈ ((db.rows.filter (fun r => !(r.id == id))).insertionSort
      createdDesc).map Row.toTodo, item.ID ≠ id := by
    intro item hitem
    rw [List.mem_map] at hitem
    obtain ⟨r, hr, rfl⟩ := hitem
    have hr2 : r ∈ db.rows.filter (fun r => !(r.id == id)) :=
      (List.perm_insertionSort createdDesc _).subset hr
    have := (List.mem_filter.mp hr2).2
    simpa [Row.toTodo] using this
  rw [hfirst]
  refine ⟨rfl, ?_, ⟨_, getTodos_of_clear Faults.clear _ rfl rfl, hitems⟩, ?_, ?_, ?_⟩
  · show db.rows.filter (fun r => !(r.id == id)) = db.rows.filter (fun r => decide (r.id ≠ id))
    congr 1
    funext r
    by_cases h : r.id = id <;> simp [h]
  · intro g items hbody item hitem
    rw [getTodos_todos g _ items hbody] at hitem
    exact hitems item hitem
  · show (deleteTodo f2 param ⟨db.rows.filter (fun r => !(r.id == id)), db.seq⟩).status = _
    rw [hsecond]
  · show (deleteTodo f2 param ⟨db.rows.filter (fun r => !(r.id == id)), db.seq⟩).db = _
    rw [hsecond]

/-- Delete of id 1 twice on a store of two rows: 200 then 404, and id 1 is gone from the listing. -/
theorem deleteTodo_twice_witness :
    (deleteTodo Faults.clear "1" ⟨[⟨1, "a", false, 3⟩, ⟨2, "b", true, 4⟩], 2⟩).status
      = StatusOK ∧
    (deleteTodo Faults.clear "1" ⟨[⟨1, "a", false, 3⟩, ⟨2, "b", true, 4⟩], 2⟩).db.rows
      = ([⟨1, "a", false, 3⟩, ⟨2, "b", true, 4⟩] : List Row).filter (fun r => decide (r.id ≠ 1)) ∧
    (∃ items,
      getTodos Faults.clear
          (deleteTodo Faults.clear "1" ⟨[⟨1, "a", false, 3⟩, ⟨2, "b", true, 4⟩], 2⟩).db
        = ⟨(deleteTodo Faults.clear "1" ⟨[⟨1, "a", false, 3⟩, ⟨2, "b", true, 4⟩], 2⟩).db,
            StatusOK, .todos items, [.selectAll]⟩ ∧
      ∀ item ∈ items, item.ID ≠ 1) ∧
    (∀ (g : Faults) (items : List Todo),
      (getTodos g
          (deleteTodo Faults.clear "1" ⟨[⟨1, "a", false, 3⟩, ⟨2, "b", true, 4⟩], 2⟩).db).body
        = .todos items →
      ∀ item ∈ items, item.ID ≠ 1) ∧
    (deleteTodo Faults.clear "1"
        (deleteTodo Faults.clear "1" ⟨[⟨1, "a", false, 3⟩, ⟨2, "b", true, 4⟩], 2⟩).db).status
      = StatusNotFound ∧
    (deleteTodo Faults.clear "1"
        (deleteTodo Faults.clear "1" ⟨[⟨1, "a", false, 3⟩, ⟨2, "b", true, 4⟩], 2⟩).db).db
      = (deleteTodo Faults.clear "1" ⟨[⟨1, "a", false, 3⟩, ⟨2, "b", true, 4⟩], 2⟩).db :=
  deleteTodo_twice Faults.clear Faults.clear "1" 1
    ⟨[⟨1, "a", false, 3⟩, ⟨2, "b", true, 4⟩], 2⟩ (by decide)
    ⟨⟨1, "a", false, 3⟩, by decide, rfl⟩ rfl rfl rfl rfl

/-- C10: for every store and every request, whatever the storage calls meet,
Update leaves the id of every row as it was (row by row, in table order) and
keeps every row whose id differs from the one in the path exactly as it was;
Delete keeps every row whose id differs from the one in the path and leaves no
row that was not there; List leaves the store as it was. -/
theorem other_rows_untouched (fu fd fl : Faults) (param : String) (body : Option UpdateJSON)
    (db : Store) :
    ((updateTodo fu param body db).db.rows.map Row.id = db.rows.map Row.id ∧
      ∀ r ∈ db.rows, Atoi param ≠ some r.id → r ∈ (updateTodo fu param body db).db.rows) ∧
    ((∀ r ∈ db.rows, Atoi param ≠ some r.id → r ∈ (deleteTodo fd param db).db.rows) ∧
      ∀ r ∈ (deleteTodo fd param db).db.rows, r ∈ db.rows) ∧
    (getTodos fl db).db = db := by
  refine ⟨?_, ?_, getTodos_db fl db⟩
  · rcases updateTodo_db fu param body db with h | ⟨id, title, completed, hA, h⟩
    · rw [h]
      exact ⟨rfl, fun r hr _ => hr⟩
    · rw [h]
      constructor
      · show (db.rows.map _).map Row.id = _
        rw [List.map_map]
        apply List.map_congr_left
        intro r _
        by_cases hr : r.id = id <;> simp [hr]
      · intro r hr hne
        show r ∈ db.rows.map _
        rw [List.mem_map]
        refine ⟨r, hr, ?_⟩
        have : r.id ≠ id := fun he => hne (by rw [hA, he])
        simp [this]
  · rcases deleteTodo_db fd param db with h | ⟨id, hA, h⟩
    · rw [h]
      exact ⟨fun r hr _ => hr, fun r hr => hr⟩
    · rw [h]
      constructor
      · intro r hr hne
        show r ∈ db.rows.filter _
        rw [List.mem_filter]
        have : r.id ≠ id := fun he => hne (by rw [hA, he])
        exact ⟨hr, by simpa using this⟩
      · intro r hr
        exact (List.mem_filter.mp hr).1

/-- C1, evaluated: after Create "Buy milk" on the empty store, Update of id 1
with the body `title: ""`, no storage call failing, answers 200 and the store
holds a row whose title is empty. -/
theorem update_persists_empty_title :
    (handle (.update Faults.clear "1" (some ⟨some "", none⟩))
        (run [.create Faults.clear 1 (some ⟨some "Buy milk"⟩)] Store.empty)).status
      = StatusOK ∧
    (run [.create Faults.clear 1 (some ⟨some "Buy milk"⟩),
          .update Faults.clear "1" (some ⟨some "", none⟩)]
        Store.empty).rows = [⟨1, "", false, 1⟩] := by
  decide

/-- C9, as stated, fails: two items created on the empty store at the same
clock reading both answer 201 and List returns them in creation order, not in
reverse; and List answers 500, not 200, when its query fails or when a `Scan`
fails. -/
theorem list_after_creates_same_reading :
    (createAll [⟨Faults.clear, 5, "first"⟩, ⟨Faults.clear, 5, "second"⟩] Store.empty).2.map
        (fun o => (o.status, o.body))
      = [(StatusCreated, .todo ⟨1, "first", false⟩),
         (StatusCreated, .todo ⟨2, "second", false⟩)] ∧
    (getTodos Faults.clear
        (createAll [⟨Faults.clear, 5, "first"⟩, ⟨Faults.clear, 5, "second"⟩] Store.empty).1).body
      = .todos [⟨1, "first", false⟩, ⟨2, "second", false⟩] ∧
    (getTodos ⟨true, none, false, false⟩
        (createAll [⟨Faults.clear, 5, "first"⟩, ⟨Faults.clear, 5, "second"⟩] Store.empty).1).status
      = StatusInternalServerError ∧
    (getTodos ⟨false, some 1, false, false⟩
        (createAll [⟨Faults.clear, 5, "first"⟩, ⟨Faults.clear, 5, "second"⟩] Store.empty).1).status
      = StatusInternalServerError := by
  decide

/-- C9, amended: a List whose query and scans do not fail answers 200 with all
rows, latest `created_at` first. For every store and every N items created one
after the other (each Create answers 201), the clock reading of each insert
strictly later than those of the inserts before it and of the rows already
stored, such a List then returns the N Todos that the Creates returned, in
reverse creation order, followed by what it returned before; what it returns
is every row of the table, ordered by `created_at` descending. -/
theorem list_after_creates (g : Faults) (reqs : List CreateReq) (db : Store)
    (hquery : g.query = false) (hscan : g.scanAt = none)
    (hcreated : ∀ o ∈ (createAll reqs db).2, o.status = StatusCreated)
    (hclock : (reqs.map CreateReq.now).Pairwise (· < ·))
    (hlater : ∀ r ∈ db.rows, ∀ q ∈ reqs, r.created_at < q.now) :
    ∃ created before : List Todo,
      (createAll reqs db).2.map Outcome.body = created.map Body.todo ∧
      created.length = reqs.length ∧
      created.map Todo.Title = reqs.map CreateReq.title ∧
      (∀ t ∈ created, t.Completed = false) ∧
      getTodos g db = ⟨db, StatusOK, .todos before, [.selectAll]⟩ ∧
      (getTodos g (createAll reqs db).1).status = StatusOK ∧
      (getTodos g (createAll reqs db).1).body = .todos (created.reverse ++ before) ∧
      ∃ sorted : List Row,
        sorted.Perm (createAll reqs db).1.rows ∧
        sorted.Pairwise (fun a b => b.created_at ≤ a.created_at) ∧
        created.reverse ++ before = sorted.map Row.toTodo := by
  obtain ⟨created, hbodies, htitles, hcompleted, hlist⟩ :=
    createAll_listing reqs db hcreated hclock hlater
  refine ⟨created, (db.rows.insertionSort createdDesc).map Row.toTodo, hbodies, ?_, htitles,
    hcompleted, getTodos_of_clear g db hquery hscan,
    by rw [getTodos_of_clear g _ hquery hscan], ?_,
    (createAll reqs db).1.rows.insertionSort createdDesc,
    List.perm_insertionSort createdDesc _, List.sorted_insertionSort createdDesc _,
    hlist.symm⟩
  · have := congrArg List.length htitles
    simpa using this
  · rw [getTodos_of_clear g _ hquery hscan]
    show Body.todos _ = _
    rw [hlist]

/-- Three items created at clock readings 5, 6 and 9 on a store of two older rows. -/
theorem list_after_creates_witness :
    ∃ created before : List Todo,
      (createAll [⟨Faults.clear, 5, "Buy milk"⟩, ⟨Faults.clear, 6, "Walk dog"⟩,
            ⟨Faults.clear, 9, "Pay rent"⟩]
          ⟨[⟨1, "old", true, 3⟩, ⟨2, "older", false, 2⟩], 2⟩).2.map Outcome.body
        = created.map Body.todo ∧
      created.length = ([⟨Faults.clear, 5, "Buy milk"⟩, ⟨Faults.clear, 6, "Walk dog"⟩,
            ⟨Faults.clear, 9, "Pay rent"⟩] : List CreateReq).length ∧
      created.map Todo.Title
        = ([⟨Faults.clear, 5, "Buy milk"⟩, ⟨Faults.clear, 6, "Walk dog"⟩,
            ⟨Faults.clear, 9, "Pay rent"⟩] : List CreateReq).map CreateReq.title ∧
      (∀ t ∈ created, t.Completed = false) ∧
      getTodos Faults.clear ⟨[⟨1, "old", true, 3⟩, ⟨2, "older", false, 2⟩], 2⟩
        = ⟨⟨[⟨1, "old", true, 3⟩, ⟨2, "older", false, 2⟩], 2⟩, StatusOK, .todos before,
            [.selectAll]⟩ ∧
      (getTodos Faults.clear
          (createAll [⟨Faults.clear, 5, "Buy milk"⟩, ⟨Faults.clear, 6, "Walk dog"⟩,
              ⟨Faults.clear, 9, "Pay rent"⟩]
            ⟨[⟨1, "old", true, 3⟩, ⟨2, "older", false, 2⟩], 2⟩).1).status = StatusOK ∧
      (getTodos Faults.clear
          (createAll [⟨Faults.clear, 5, "Buy milk"⟩, ⟨Faults.clear, 6, "Walk dog"⟩,
              ⟨Faults.clear, 9, "Pay rent"⟩]
            ⟨[⟨1, "old", true, 3⟩, ⟨2, "older", false, 2⟩], 2⟩).1).body
        = .todos (created.reverse ++ before) ∧
      ∃ sorted : List Row,
        sorted.Perm
          (createAll [⟨Faults.clear, 5, "Buy milk"⟩, ⟨Faults.clear, 6, "Walk dog"⟩,
              ⟨Faults.clear, 9, "Pay rent"⟩]
            ⟨[⟨1, "old", true, 3⟩, ⟨2, "older", false, 2⟩], 2⟩).1.rows ∧
        sorted.Pairwise (fun a b => b.created_at ≤ a.created_at) ∧
        created.reverse ++ before = sorted.map Row.toTodo :=
  list_after_creates Faults.clear
    [⟨Faults.clear, 5, "Buy milk"⟩, ⟨Faults.clear, 6, "Walk dog"⟩, ⟨Faults.clear, 9, "Pay rent"⟩]
    ⟨[⟨1, "old", true, 3⟩, ⟨2, "older", false, 2⟩], 2⟩
    rfl rfl (by decide) (by decide) (by decide)

end TodoList
